import Mathlib

/-!
Verification of the gcstats price/FX/cache pipeline (src/app.py).

Shallow embedding conventions:
* Python floats are modelled as exact rationals (ℚ). The source performs
  only field arithmetic on values obtained from integer chain data, so the
  rational model captures the intended value of every expression.
* Network calls (chain RPC, the FX HTTP request) are modelled as explicit
  inputs: `Except String _` for calls that either return decoded data or
  raise, and `Option _` where the code only distinguishes success/failure.
* Python dict/`None` truthiness on numeric values is `pyTruthy` below:
  `None` and `0.0` are falsy, everything else truthy.
* `f"{x:.4f}"`/`f"{x:+.2f}"` formatting is modelled by `fmtFixed` /
  `fmtForcedSign` (fixed-point rendering of a rational, round half to even).
-/

/-- Python truthiness of an optional numeric value: `None` and `0.0` are
falsy, every other float is truthy. -/
def pyTruthy : Option ℚ → Bool
  | none => false
  | some v => decide (v ≠ 0)

/-- Round a rational to the nearest integer, ties to even (the rounding used
by Python float formatting). -/
def roundHalfEven (q : ℚ) : ℤ :=
  let f := Rat.floor q
  let r := q - f
  if r > 1 / 2 then f + 1
  else if r < 1 / 2 then f
  else if f % 2 = 0 then f else f + 1

/-- Digits of `|q|` rendered with `prec` places after the decimal point. -/
def fmtFixedAbs (prec : ℕ) (q : ℚ) : String :=
  let n := (roundHalfEven (|q| * 10 ^ prec)).toNat
  let ip := n / 10 ^ prec
  let fp := n % 10 ^ prec
  let s := toString fp
  let pad := String.mk (List.replicate (prec - s.length) '0')
  toString ip ++ "." ++ pad ++ s

/-- Model of Python `f"{q:.prec f}"`. -/
def fmtFixed (prec : ℕ) (q : ℚ) : String :=
  (if q < 0 then "-" else "") ++ fmtFixedAbs prec q

/-- Model of Python `f"{q:+.prec f}"` (sign always shown). -/
def fmtForcedSign (prec : ℕ) (q : ℚ) : String :=
  (if q < 0 then "-" else "+") ++ fmtFixedAbs prec q

/-- `address[:8] + ".." + address[-4:]` from src/app.py. -/
def shortAddr (a : String) : String :=
  a.take 8 ++ ".." ++ a.drop (a.length - 4)

/-- One entry of the POOLS configuration list (src/app.py lines 110–115).
`sdai_adjust` is the optional dict key, absent = `false`. -/
structure PoolConfig where
  address : String
  pair : String
  fx_pair : String
  sdai_adjust : Bool
deriving DecidableEq

/-- The POOLS configuration list, verbatim from src/app.py. -/
def POOLS : List PoolConfig :=
  [⟨"0x576bf065cbc15cb2d61affb156118fcff01a8238", "USDC.E/BRLA", "USD/BRL", false⟩,
   ⟨"0x1bb53efa5523c80b598b561e266dfdc938f80e4f", "EURE/ZCHF", "EUR/CHF", false⟩,
   ⟨"0x9fc285501a38d734e7b42147445d303cf8f7946b", "BRZ/USDC.E", "BRL/USD", false⟩,
   ⟨"0x22eb73322b6334ccf07fc2f9f22690a012d22797", "GBPE/SDAI", "GBP/USD", true⟩]

/-- One entry of the BOTS configuration list (src/app.py lines 73–76). -/
structure BotConfig where
  address : String
  name : String
  chain : String
deriving DecidableEq

/-- The BOTS configuration list, verbatim from src/app.py. -/
def BOTS : List BotConfig :=
  [⟨"0x90463d5c5B7384b630FfEAF759ab91811457CBAb", "BRIDGE BOT", "mainnet"⟩,
   ⟨"0xFA0951092B227b0103062D3EDDFC2FCcB13e9C1D", "TEMP BOT", "mainnet"⟩]

/-- The on-chain data a successful `get_pool_price` run obtains: the
`sqrtPriceX96` field of `slot0` (a uint160, hence a natural number) and the
two tokens' decimal counts (uint8). -/
structure PoolChainData where
  sqrtPriceX96 : ℕ
  decimals0 : ℕ
  decimals1 : ℕ
deriving DecidableEq

/-- Result dict of `get_pool_price`: `{"price": p, "success": True}` or
`{"success": False, "error": msg}`. -/
inductive PriceResult where
  | ok (price : ℚ)
  | err (error : String)
deriving DecidableEq

/-- src/app.py line 183:
`price = (sqrt_price_x96 / (2**96)) ** 2 * (10 ** (decimals0 - decimals1))`.
Exponent difference is a Python int (may be negative), hence `zpow`. -/
def decodeSqrtPriceX96 (sqrt_price_x96 decimals0 decimals1 : ℕ) : ℚ :=
  ((sqrt_price_x96 : ℚ) / 2 ^ 96) ^ 2 *
    (10 : ℚ) ^ ((decimals0 : ℤ) - (decimals1 : ℤ))

/-- `get_pool_price` (src/app.py lines 168–188): the five chain calls are
modelled as one input that either yields the decoded data or raises with a
message; on exception the error dict is returned. -/
def get_pool_price (chain : Except String PoolChainData) : PriceResult :=
  match chain with
  | Except.ok d =>
      PriceResult.ok (decodeSqrtPriceX96 d.sqrtPriceX96 d.decimals0 d.decimals1)
  | Except.error e => PriceResult.err e

/-- Spec §4.2, stated in the spec's own words: normalized_price =
(raw_sqrt_price / 2^96)^2 × 10^(decimals_of_token0 − decimals_of_token1). -/
def spec_normalized_price (raw_sqrt_price decimals_token0 decimals_token1 : ℕ) : ℚ :=
  ((raw_sqrt_price : ℚ) / 2 ^ 96) ^ 2 *
    (10 : ℚ) ^ ((decimals_token0 : ℤ) - (decimals_token1 : ℤ))

/-- `get_sdai_rate` (src/app.py lines 118–127): on success, the uint256
returned by `convertToAssets(10**18)` divided by `10**18`; on any
exception, `1.0`. -/
def get_sdai_rate (call : Option ℕ) : ℚ :=
  match call with
  | some assets => (assets : ℚ) / 10 ^ 18
  | none => 1

/-- src/app.py lines 216–217: `if pool.get("sdai_adjust"): pool_price =
pool_price * sdai_rate`. -/
def adjustPoolPrice (price sdai_rate : ℚ) (adjust : Bool) : ℚ :=
  if adjust then price * sdai_rate else price

/-- The body of the FX service response the code reads: HTTP status and the
four currency entries looked up in `resp.json().get("rates", {})`
(src/app.py lines 148–154). A currency missing from the JSON is `none`. -/
structure FxResponse where
  status : ℕ
  brl : Option ℚ
  chf : Option ℚ
  eur : Option ℚ
  gbp : Option ℚ
deriving DecidableEq

/-- The `rates` dict built by `get_fx_rates`. Every read of the dict in the
program goes through `.get`, which collapses a stored Python `None` and a
missing key; both are modelled as `none`. -/
structure FxTable where
  usdBrl : Option ℚ
  usdChf : Option ℚ
  usdEur : Option ℚ
  usdGbp : Option ℚ
  brlUsd : Option ℚ
  eurChf : Option ℚ
  gbpUsd : Option ℚ
deriving DecidableEq

/-- The empty `rates` dict. -/
def emptyFx : FxTable := ⟨none, none, none, none, none, none, none⟩

/-- `rates.get(key)` on the table built by `get_fx_rates`. -/
def FxTable.get (t : FxTable) (k : String) : Option ℚ :=
  if k = "USD/BRL" then t.usdBrl
  else if k = "USD/CHF" then t.usdChf
  else if k = "USD/EUR" then t.usdEur
  else if k = "USD/GBP" then t.usdGbp
  else if k = "BRL/USD" then t.brlUsd
  else if k = "EUR/CHF" then t.eurChf
  else if k = "GBP/USD" then t.gbpUsd
  else none

/-- `get_fx_rates` (src/app.py lines 143–165). The HTTP call and JSON parse
are modelled as one input: `none` when the request or parse raises (no rate
was stored before either can raise), `some r` when a response with status
`r.status` and rate entries was obtained. On status ≠ 200 the partial
(empty) dict is returned. Derived cross-rates are guarded by Python
truthiness of the base entries. -/
def get_fx_rates (resp : Option FxResponse) : FxTable :=
  match resp with
  | none => emptyFx
  | some r =>
      if r.status = 200 then
        let usdBrl := r.brl
        let usdChf := r.chf
        let usdEur := r.eur
        let usdGbp := r.gbp
        let brlUsd := match usdBrl with
          | some v => if v ≠ 0 then some (1 / v) else none
          | none => none
        let eurChf := match usdChf, usdEur with
          | some c, some e => if c ≠ 0 ∧ e ≠ 0 then some (c / e) else none
          | _, _ => none
        let gbpUsd := match usdGbp with
          | some v => if v ≠ 0 then some (1 / v) else none
          | none => none
        ⟨usdBrl, usdChf, usdEur, usdGbp, brlUsd, eurChf, gbpUsd⟩
      else emptyFx

/-- src/app.py lines 222–223: the deviation is computed only under
`if fx_rate and pool_price > 0` (Python truthiness on `fx_rate`); otherwise
no numeric deviation exists. -/
def computeDev (pool_price : ℚ) : Option ℚ → Option ℚ
  | some b => if b ≠ 0 ∧ pool_price > 0
      then some ((pool_price - b) / b * 100) else none
  | none => none

/-- src/app.py lines 224–229: severity class of a computed deviation. -/
def classifyDev (dev : ℚ) : String :=
  if |dev| < 1 / 2 then "positive"
  else if |dev| > 2 then "negative"
  else "neutral"

/-- src/app.py line 230: the rendered deviation cell for a computed
deviation. -/
def devSpan (dev_class : String) (dev : ℚ) : String :=
  "<span class=\x27" ++ dev_class ++ "\x27>" ++ fmtForcedSign 2 dev ++ "%</span>"

/-- A row of the pool table (src/app.py lines 234–252): all fields are the
strings placed in the dict. -/
structure PoolRow where
  pair : String
  addr : String
  full_addr : String
  price : String
  fx_pair : String
  fx_rate : String
  dev : String
deriving DecidableEq

/-- The loop body of `fetch_pool_data` (src/app.py lines 211–252) for one
configured pool, given the already-fetched FX table, sDAI rate and the
pool's own price result. -/
def poolRow (fx_rates : FxTable) (sdai_rate : ℚ) (res : PriceResult)
    (pool : PoolConfig) : PoolRow :=
  match res with
  | PriceResult.ok price =>
      let pool_price := adjustPoolPrice price sdai_rate pool.sdai_adjust
      let fx_rate := if pool.fx_pair ≠ "" then fx_rates.get pool.fx_pair else none
      let dev_str := match computeDev pool_price fx_rate with
        | some dev => devSpan (classifyDev dev) dev
        | none => "—"
      { pair := pool.pair,
        addr := shortAddr pool.address,
        full_addr := pool.address,
        price := fmtFixed 4 pool_price,
        fx_pair := if pool.fx_pair ≠ "" then pool.fx_pair else "—",
        fx_rate := match fx_rate with
          | some v => if v ≠ 0 then fmtFixed 4 v else "—"
          | none => "—",
        dev := dev_str }
  | PriceResult.err _ =>
      { pair := pool.pair,
        addr := shortAddr pool.address,
        full_addr := pool.address,
        price := "ERR",
        fx_pair := if pool.fx_pair ≠ "" then pool.fx_pair else "—",
        fx_rate := "—",
        dev := "—" }

/-- The external world as `fetch_pool_data` observes it: the per-address
outcome of the pool chain calls, the FX response, the sDAI vault call, and
the wall-clock timestamp string. -/
structure PoolEnv where
  chain : String → Except String PoolChainData
  fx : Option FxResponse
  sdai : Option ℕ
  now : String

/-- `fetch_pool_data` (src/app.py lines 204–254): fetch FX rates and the
sDAI rate once, then build one row per configured pool in order; return the
rows with the batch timestamp. -/
def fetch_pool_data (env : PoolEnv) : List PoolRow × String :=
  let fx_rates := get_fx_rates env.fx
  let sdai_rate := get_sdai_rate env.sdai
  (POOLS.map fun pool =>
    poolRow fx_rates sdai_rate (get_pool_price (env.chain pool.address)) pool,
   env.now)

/-- Result dict of `get_bot_balance`: balance in native units or error. -/
inductive BalanceResult where
  | ok (balance : ℚ)
  | err (error : String)
deriving DecidableEq

/-- `get_bot_balance` (src/app.py lines 191–201): the chain read either
yields the wei balance (a nonnegative integer) divided by `10**18`, or the
error dict. -/
def get_bot_balance (call : Except String ℕ) : BalanceResult :=
  match call with
  | Except.ok wei => BalanceResult.ok ((wei : ℚ) / 10 ^ 18)
  | Except.error e => BalanceResult.err e

/-- A row of the bot table (src/app.py lines 269–276). -/
structure BotRow where
  name : String
  address : String
  addr_short : String
  chain : String
  balance : String
  explorer : String
deriving DecidableEq

/-- The loop body of `fetch_bot_data` (src/app.py lines 261–276) for one
configured bot. -/
def botRow (res : BalanceResult) (bot : BotConfig) : BotRow :=
  let balance := match res with
    | BalanceResult.ok b => fmtFixed 4 b
    | BalanceResult.err _ => "ERR"
  let explorer := if bot.chain = "mainnet"
    then "https://etherscan.io" else "https://gnosisscan.io"
  { name := bot.name,
    address := bot.address,
    addr_short := shortAddr bot.address,
    chain := bot.chain,
    balance := balance,
    explorer := explorer }

/-- The external world as `fetch_bot_data` observes it: per (address, chain)
balance call outcome and the timestamp string. -/
structure BotEnv where
  chainCall : String → String → Except String ℕ
  now : String

/-- `fetch_bot_data` (src/app.py lines 257–278): one row per configured bot
in order, with the batch timestamp. -/
def fetch_bot_data (env : BotEnv) : List BotRow × String :=
  (BOTS.map fun bot =>
    botRow (get_bot_balance (env.chainCall bot.address bot.chain)) bot,
   env.now)

/-- Modelled from the spec: the TTL cache layer is provided by the
`st.cache_data` decorator of the streamlit library, whose source is not part
of this repository; src/app.py only applies it with per-function `ttl`
values. Per spec §3/§4.5, a cache entry stores the value, its creation
timestamp and the TTL, and it is served only while its age is below the
TTL. -/
structure CacheEntry (α : Type) where
  value : α
  created : ℚ
  ttl : ℚ
deriving DecidableEq

/-- Modelled from the spec: one read-through cache access for one key at
wall-clock time `now`. `st` is the entry stored for this key (if any) and
`fetched` the value the underlying function would produce if invoked now
(success or failure sentinel alike). Returns the value served, the entry
stored afterwards, and whether the underlying function was invoked. -/
def cacheCall {α : Type} (ttl now : ℚ) (st : Option (CacheEntry α))
    (fetched : α) : α × CacheEntry α × Bool :=
  match st with
  | some e =>
      if now - e.created < e.ttl then (e.value, e, false)
      else (fetched, ⟨fetched, now, ttl⟩, true)
  | none => (fetched, ⟨fetched, now, ttl⟩, true)

/-- Claim C1: for every raw square-root price value and token decimal
counts, the price decoder computes
(raw_sqrt_price / 2^96)^2 * 10^(decimals0 − decimals1); in particular the
raw value 2^96 (sqrt(price) = 1.0) with equal decimals decodes to 1. -/
theorem price_decoder_matches_spec :
    (∀ raw d0 d1 : ℕ,
      decodeSqrtPriceX96 raw d0 d1 = spec_normalized_price raw d0 d1) ∧
    (∀ d : ℕ, decodeSqrtPriceX96 (2 ^ 96) d d = 1) ∧
    (∀ d : ℕ, get_pool_price (Except.ok ⟨2 ^ 96, d, d⟩) = PriceResult.ok 1) := by
  have h2 : ∀ d : ℕ, decodeSqrtPriceX96 (2 ^ 96) d d = 1 := by
    intro d
    unfold decodeSqrtPriceX96
    rw [sub_self, zpow_zero, mul_one]
    norm_num
  exact ⟨fun _ _ _ => rfl, h2, fun d => congrArg PriceResult.ok (h2 d)⟩

/-- Claim C2: the classifier assigns "positive" iff |dev| < 0.5, "negative"
iff |dev| > 2, "neutral" otherwise; the boundary values 0.5 and 2.0 are
both "neutral". -/
theorem deviation_classifier_thresholds (dev : ℚ) :
    (classifyDev dev = "positive" ↔ |dev| < 1 / 2) ∧
    (classifyDev dev = "negative" ↔ 2 < |dev|) ∧
    (classifyDev dev = "neutral" ↔ (1 / 2 ≤ |dev| ∧ |dev| ≤ 2)) ∧
    classifyDev (1 / 2) = "neutral" ∧
    classifyDev 2 = "neutral" := by
  refine ⟨?_, ?_, ?_, ?_, ?_⟩
  · unfold classifyDev
    split_ifs with h1 h2
    · exact iff_of_true rfl h1
    · exact iff_of_false (by simp) h1
    · exact iff_of_false (by simp) h1
  · unfold classifyDev
    split_ifs with h1 h2
    · exact iff_of_false (by simp) (by intro hc; linarith)
    · exact iff_of_true rfl h2
    · exact iff_of_false (by simp) h2
  · unfold classifyDev
    split_ifs with h1 h2
    · exact iff_of_false (by simp) fun hc => absurd h1 (not_lt.mpr hc.1)
    · exact iff_of_false (by simp) fun hc => absurd h2 (not_lt.mpr hc.2)
    · exact iff_of_true rfl ⟨not_lt.mp h1, not_lt.mp h2⟩
  · unfold classifyDev
    rw [abs_of_pos (by norm_num : (0 : ℚ) < 1 / 2),
      if_neg (by norm_num), if_neg (by norm_num)]
  · unfold classifyDev
    rw [abs_of_pos (by norm_num : (0 : ℚ) < 2),
      if_neg (by norm_num), if_neg (by norm_num)]

/-- Claim C3: with a truthy (present, nonzero) benchmark rate b and a
positive pool price p, the computed deviation is exactly
(p − b) / b × 100; with the benchmark absent, or the price nonpositive,
no numeric deviation is produced. -/
theorem deviation_formula_and_sentinel (p b : ℚ) :
    (b ≠ 0 → 0 < p → computeDev p (some b) = some ((p - b) / b * 100)) ∧
    computeDev p none = none ∧
    (p ≤ 0 → computeDev p (some b) = none) := by
  refine ⟨fun hb hp => ?_, rfl, fun hp => ?_⟩
  · simp [computeDev, hb, hp]
  · simp [computeDev, not_lt_of_le hp]

/-- Witness for C3 at concrete inputs. -/
theorem deviation_formula_and_sentinel_witness :
    computeDev 2 (some 1) = some 100 ∧
    computeDev 2 none = none ∧
    computeDev (-1) (some 1) = none := by
  refine ⟨?_, (deviation_formula_and_sentinel 2 1).2.1,
    (deviation_formula_and_sentinel (-1) 1).2.2 (by norm_num)⟩
  have h := (deviation_formula_and_sentinel 2 1).1 (by norm_num) (by norm_num)
  rw [h]
  norm_num

/-- Claim C10: the deviation division runs only under the guard
`fx_rate and pool_price > 0`: a benchmark of exactly 0 (and an absent one)
yields no numeric deviation, and any numeric deviation that is produced
came from a nonzero divisor and a positive price. -/
theorem deviation_division_guard (p : ℚ) :
    computeDev p (some 0) = none ∧
    computeDev p none = none ∧
    (∀ (d : ℚ) (fx : Option ℚ), computeDev p fx = some d →
      ∃ b, fx = some b ∧ b ≠ 0 ∧ 0 < p ∧ d = (p - b) / b * 100) := by
  refine ⟨by simp [computeDev], rfl, ?_⟩
  intro d fx h
  cases fx with
  | none => simp [computeDev] at h
  | some b =>
      simp only [computeDev] at h
      split_ifs at h with hb
      injection h with h'
      exact ⟨b, rfl, hb.1, hb.2, h'.symm⟩

/-- Witness for C10 at concrete inputs. -/
theorem deviation_division_guard_witness :
    computeDev (1 : ℚ) (some 0) = none ∧
    (∃ b, (some (1 : ℚ)) = some b ∧ b ≠ 0 ∧ (0 : ℚ) < 2 ∧
      (100 : ℚ) = (2 - b) / b * 100) :=
  ⟨(deviation_division_guard 1).1,
   (deviation_division_guard 2).2.2 100 (some 1) (by norm_num [computeDev])⟩

/-- Claim C6: a yield-adjusted pool's decoded price is multiplied by the
sDAI assets-per-share ratio (1.20 × 1.05 = 1.26); when the vault call
fails, the ratio defaults to 1.0 and the price is unchanged. -/
theorem sdai_yield_adjustment (p r sd : ℚ) (fx : FxTable) (pool : PoolConfig) :
    adjustPoolPrice p r true = p * r ∧
    adjustPoolPrice (6 / 5) (21 / 20) true = 63 / 50 ∧
    get_sdai_rate none = 1 ∧
    adjustPoolPrice p (get_sdai_rate none) true = p ∧
    (pool.sdai_adjust = true →
      (poolRow fx sd (PriceResult.ok p) pool).price = fmtFixed 4 (p * sd)) := by
  refine ⟨rfl, by norm_num [adjustPoolPrice], rfl,
    by simp [adjustPoolPrice, get_sdai_rate], fun h => ?_⟩
  simp [poolRow, adjustPoolPrice, h]

/-- Witness for C6 at concrete inputs. -/
theorem sdai_yield_adjustment_witness :
    (poolRow emptyFx (21 / 20) (PriceResult.ok (6 / 5)) ⟨"a", "b", "c", true⟩).price
      = fmtFixed 4 ((6 / 5) * (21 / 20)) :=
  (sdai_yield_adjustment (6 / 5) 1 (21 / 20) emptyFx ⟨"a", "b", "c", true⟩).2.2.2.2 rfl

/-- Claim C4: on a successful fetch, a USD-quoted rate r for a currency
yields the reciprocal derived rate 1/r (BRL/USD, GBP/USD), and EUR/CHF is
derived as (USD/CHF)/(USD/EUR) whenever both are present. -/
theorem fx_cross_rate_derivation (r : FxResponse) (hs : r.status = 200) :
    (∀ x, r.brl = some x → x ≠ 0 →
      (get_fx_rates (some r)).brlUsd = some (1 / x)) ∧
    (∀ x, r.gbp = some x → x ≠ 0 →
      (get_fx_rates (some r)).gbpUsd = some (1 / x)) ∧
    (∀ c e, r.chf = some c → r.eur = some e → c ≠ 0 → e ≠ 0 →
      (get_fx_rates (some r)).eurChf = some (c / e)) := by
  refine ⟨fun x hx hx0 => ?_, fun x hx hx0 => ?_,
    fun c e hc he hc0 he0 => ?_⟩
  · simp [get_fx_rates, hs, hx, hx0]
  · simp [get_fx_rates, hs, hx, hx0]
  · simp [get_fx_rates, hs, hc, he, hc0, he0]

/-- Witness for C4: the spec's end-to-end table
{BRL: 5.0, EUR: 0.9, CHF: 0.95, GBP: 0.8} derives BRL/USD = 0.2,
GBP/USD = 1.25 and EUR/CHF = 0.95/0.9. -/
theorem fx_cross_rate_derivation_witness :
    (get_fx_rates (some ⟨200, some 5, some (19/20), some (9/10), some (4/5)⟩)).brlUsd
      = some (1/5) ∧
    (get_fx_rates (some ⟨200, some 5, some (19/20), some (9/10), some (4/5)⟩)).gbpUsd
      = some (5/4) ∧
    (get_fx_rates (some ⟨200, some 5, some (19/20), some (9/10), some (4/5)⟩)).eurChf
      = some (19/18) := by
  have h := fx_cross_rate_derivation
    ⟨200, some 5, some (19/20), some (9/10), some (4/5)⟩ rfl
  refine ⟨?_, ?_, ?_⟩
  · rw [h.1 5 rfl (by norm_num)]
  · rw [h.2.1 (4/5) rfl (by norm_num)]
    norm_num
  · rw [h.2.2 (19/20) (9/10) rfl rfl (by norm_num) (by norm_num)]
    norm_num

/-- Claim C5: a derived cross-rate is present only when all its required
USD-quoted base rates are: absent USD/BRL forces absent BRL/USD, absent
USD/GBP forces absent GBP/USD, and a missing USD/CHF or USD/EUR forces an
absent EUR/CHF. -/
theorem fx_no_partial_cross_rates (resp : Option FxResponse) :
    ((get_fx_rates resp).usdBrl = none → (get_fx_rates resp).brlUsd = none) ∧
    ((get_fx_rates resp).usdGbp = none → (get_fx_rates resp).gbpUsd = none) ∧
    (((get_fx_rates resp).usdChf = none ∨ (get_fx_rates resp).usdEur = none) →
      (get_fx_rates resp).eurChf = none) := by
  cases resp with
  | none => simp [get_fx_rates, emptyFx]
  | some r =>
      by_cases hs : r.status = 200
      · cases hb : r.brl <;> cases hc : r.chf <;> cases he : r.eur <;>
          cases hg : r.gbp <;> simp_all [get_fx_rates, emptyFx]
      · simp [get_fx_rates, hs, emptyFx]

/-- Witness for C5: a response missing BRL, CHF and GBP derives none of the
three cross-rates. -/
theorem fx_no_partial_cross_rates_witness :
    (get_fx_rates (some ⟨200, none, none, some 1, none⟩)).brlUsd = none ∧
    (get_fx_rates (some ⟨200, none, none, some 1, none⟩)).gbpUsd = none ∧
    (get_fx_rates (some ⟨200, none, none, some 1, none⟩)).eurChf = none := by
  have h := fx_no_partial_cross_rates (some ⟨200, none, none, some 1, none⟩)
  exact ⟨h.1 rfl, h.2.1 rfl, h.2.2 (Or.inl rfl)⟩

/-- Claim C8: the FX aggregator is a total function of the call outcome —
it returns the accumulated (here: empty) table both when the HTTP call
raises and when it returns a non-success status, and no entry of that
table is set to zero (all entries are simply absent). -/
theorem fx_aggregator_failure_total (r : FxResponse) (hs : r.status ≠ 200) :
    get_fx_rates none = emptyFx ∧
    get_fx_rates (some r) = emptyFx ∧
    (∀ k : String, emptyFx.get k = none) := by
  refine ⟨rfl, ?_, fun k => ?_⟩
  · simp [get_fx_rates, hs]
  · simp [FxTable.get, emptyFx]

/-- Witness for C8 at a concrete non-success status. -/
theorem fx_aggregator_failure_total_witness :
    get_fx_rates (some ⟨500, some 5, none, none, none⟩) = emptyFx ∧
    get_fx_rates none = emptyFx :=
  ⟨(fx_aggregator_failure_total ⟨500, some 5, none, none, none⟩ (by norm_num)).2.1,
   (fx_aggregator_failure_total ⟨500, none, none, none, none⟩ (by norm_num)).1⟩

/-- Claim C9 (cache layer modelled from the spec, the `st.cache_data`
implementation not being part of this repository): a first call populates
the cache by invoking the underlying function; a second call within the TTL
window serves the stored value (success or failure sentinel alike) without
invoking it; a call after the TTL has elapsed invokes it again; and an
entry whose age exceeds its TTL is never served. -/
theorem cache_ttl_semantics {α : Type} (ttl t0 t1 : ℚ) (v1 v2 : α) :
    cacheCall ttl t0 none v1 = (v1, ⟨v1, t0, ttl⟩, true) ∧
    (t1 - t0 < ttl →
      cacheCall ttl t1 (some ⟨v1, t0, ttl⟩) v2 = (v1, ⟨v1, t0, ttl⟩, false)) ∧
    (t1 - t0 > ttl →
      cacheCall ttl t1 (some ⟨v1, t0, ttl⟩) v2 = (v2, ⟨v2, t1, ttl⟩, true)) ∧
    (∀ e : CacheEntry α, t1 - e.created > e.ttl →
      (cacheCall ttl t1 (some e) v2).1 = v2 ∧
      (cacheCall ttl t1 (some e) v2).2.2 = true) := by
  refine ⟨rfl, fun h => ?_, fun h => ?_, fun e h => ?_⟩
  · simp [cacheCall, h]
  · simp [cacheCall, not_lt.mpr (le_of_lt h)]
  · constructor <;> simp [cacheCall, not_lt.mpr (le_of_lt h)]

/-- Witness for C9 with a 60-second TTL: a call at t=30 is served from the
cache, a call at t=61 re-invokes the underlying function. -/
theorem cache_ttl_semantics_witness :
    cacheCall (60 : ℚ) 0 none (5 : ℚ) = (5, ⟨5, 0, 60⟩, true) ∧
    cacheCall (60 : ℚ) 30 (some ⟨5, 0, 60⟩) (7 : ℚ) = (5, ⟨5, 0, 60⟩, false) ∧
    cacheCall (60 : ℚ) 61 (some ⟨5, 0, 60⟩) (7 : ℚ) = (7, ⟨7, 61, 60⟩, true) :=
  ⟨(cache_ttl_semantics 60 0 30 (5 : ℚ) 7).1,
   (cache_ttl_semantics 60 0 30 (5 : ℚ) 7).2.1 (by norm_num),
   (cache_ttl_semantics 60 0 61 (5 : ℚ) 7).2.2.1 (by norm_num)⟩

/-- The per-pool row keeps its pool's pair label in both branches. -/
theorem poolRow_keeps_pair (fx : FxTable) (sd : ℚ) (res : PriceResult)
    (pool : PoolConfig) : (poolRow fx sd res pool).pair = pool.pair := by
  cases res <;> rfl

/-- Claim C7: each orchestrator returns exactly one row per configured
item, in configuration order, plus the batch timestamp; a failed item's row
carries the error marker in place of numeric fields; and each item's row
depends only on that item's own call outcome (plus the shared FX/sDAI
inputs), so other items are processed independently. -/
theorem orchestrators_per_item (envP : PoolEnv) (envB : BotEnv) :
    (fetch_pool_data envP).1.length = POOLS.length ∧
    (fetch_pool_data envP).2 = envP.now ∧
    (∀ i : ℕ, ((fetch_pool_data envP).1[i]?).map PoolRow.pair
      = (POOLS[i]?).map PoolConfig.pair) ∧
    (∀ (i : ℕ) (p : PoolConfig) (e : String), POOLS[i]? = some p →
      envP.chain p.address = Except.error e →
      ((fetch_pool_data envP).1[i]?).map PoolRow.price = some "ERR" ∧
      ((fetch_pool_data envP).1[i]?).map PoolRow.dev = some "—" ∧
      ((fetch_pool_data envP).1[i]?).map PoolRow.fx_rate = some "—") ∧
    (∀ (i : ℕ) (p : PoolConfig), POOLS[i]? = some p →
      (fetch_pool_data envP).1[i]? =
        some (poolRow (get_fx_rates envP.fx) (get_sdai_rate envP.sdai)
          (get_pool_price (envP.chain p.address)) p)) ∧
    (fetch_bot_data envB).1.length = BOTS.length ∧
    (fetch_bot_data envB).2 = envB.now ∧
    (∀ (i : ℕ) (b : BotConfig) (e : String), BOTS[i]? = some b →
      envB.chainCall b.address b.chain = Except.error e →
      ((fetch_bot_data envB).1[i]?).map BotRow.balance = some "ERR") ∧
    (∀ (i : ℕ) (b : BotConfig), BOTS[i]? = some b →
      ((fetch_bot_data envB).1[i]?).map BotRow.name = some b.name) := by
  refine ⟨by simp [fetch_pool_data], rfl, fun i => ?_,
    fun i p e hp hc => ?_, fun i p hp => ?_,
    by simp [fetch_bot_data], rfl, fun i b e hb hc => ?_, fun i b hb => ?_⟩
  · simp only [fetch_pool_data, List.getElem?_map]
    cases hp : POOLS[i]? <;> simp [hp, poolRow_keeps_pair]
  · simp only [fetch_pool_data, List.getElem?_map, hp, Option.map_some]
    refine ⟨?_, ?_, ?_⟩ <;> simp [hc, get_pool_price, poolRow]
  · simp only [fetch_pool_data, List.getElem?_map, hp, Option.map_some]
    rfl
  · simp only [fetch_bot_data, List.getElem?_map, hb, Option.map_some]
    simp [hc, get_bot_balance, botRow]
  · simp only [fetch_bot_data, List.getElem?_map, hb, Option.map_some]
    simp [botRow]

/-- Witness for C7: with every chain call failing, both orchestrators still
return full batches whose rows carry the error marker. -/
theorem orchestrators_per_item_witness :
    (fetch_pool_data ⟨fun _ => Except.error "boom", none, none, "t"⟩).1.length
      = POOLS.length ∧
    ((fetch_pool_data ⟨fun _ => Except.error "boom", none, none, "t"⟩).1[0]?).map
      PoolRow.price = some "ERR" ∧
    ((fetch_bot_data ⟨fun _ _ => Except.error "boom", "t"⟩).1[0]?).map
      BotRow.balance = some "ERR" := by
  have h := orchestrators_per_item
    ⟨fun _ => Except.error "boom", none, none, "t"⟩
    ⟨fun _ _ => Except.error "boom", "t"⟩
  exact ⟨h.1,
    (h.2.2.2.1 0 ⟨"0x576bf065cbc15cb2d61affb156118fcff01a8238",
      "USDC.E/BRLA", "USD/BRL", false⟩ "boom" rfl rfl).1,
    h.2.2.2.2.2.2.2.1 0 ⟨"0x90463d5c5B7384b630FfEAF759ab91811457CBAb",
      "BRIDGE BOT", "mainnet"⟩ "boom" rfl rfl⟩
